import Mathlib

/-!
Verification of the ChessForgeAI analysis pipeline.

The definitions below are a shallow embedding of the Python backend:
- `ChessForge.calculate_eval_loss`, `ChessForge.categorize_move_quality`,
  `ChessForge.determine_game_phase` embed the `ChessAnalysisEngine` methods of
  `backend/app/services/analysis_service.py`;
- `ChessForge.mk_record` / `ChessForge.analyze_game` embed the per-ply loop of
  `ChessAnalysisEngine.analyze_game` with the engine scores supplied as inputs;
- `ChessForge.update_analysis_progress` and friends embed the Redis progress
  hash of `backend/app/core/redis_client.py` together with the progress writes
  issued by the Celery tasks in `analysis_service.py` and `lichess_service.py`;
- `ChessForge.get_analysis_status` embeds the `/status` endpoint of
  `backend/app/api/analysis.py`;
- `ChessForge.determine_result` embeds `LichessService._determine_result`;
- `ChessForge.get_game_analysis` embeds the per-game read service.

Centipawn scores are modelled as rationals (the Python code uses floats but
performs only comparisons, negation, subtraction and absolute value, which are
exact); Redis hash fields are modelled as `Option`-valued record fields, where
`none` means the field is absent from the hash, and `hset(mapping=...)`
overwrites exactly the supplied fields when the client can encode them all (a
Python `None` value raises `DataError` client-side, which the caller
swallows, so such a write is dropped whole).
-/

namespace ChessForge

/-! ## MoveClassifier: pure functions of `ChessAnalysisEngine` -/

/-- Embeds `ChessAnalysisEngine._calculate_eval_loss`.  The third argument is
the Python `is_black_turn` parameter; at the call site the code passes
`board.turn` *after* the played move was pushed. -/
def calculate_eval_loss (pre_eval post_eval : ℚ) ( is_black_turn : Bool) : ℚ :=
  if is_black_turn then |(-post_eval) - (-pre_eval)| else |post_eval - pre_eval|

/-- Embeds `ChessAnalysisEngine._categorize_move_quality`. -/
def categorize_move_quality (eval_loss : ℚ) : String :=
  if eval_loss ≤ 10 then "excellent"
  else if eval_loss ≤ 25 then "good"
  else if eval_loss ≤ 50 then "inaccuracy"
  else if eval_loss ≤ 100 then "mistake"
  else "blunder"

/-- Embeds `ChessAnalysisEngine._determine_game_phase`: the argument is
`len(board.piece_map())`, the number of pieces remaining on the board. -/
def determine_game_phase (piece_count : ℕ) : String :=
  if piece_count > 28 then "opening"
  else if piece_count > 12 then "middlegame"
  else "endgame"

/-- Embeds `LichessService._determine_result`. -/
def determine_result (st user_color : String) : String :=
  if st = "draw" then "draw"
  else if st = "resign" then "win"
  else if st = "mate" then "win"
  else "unknown"

/-! ## Spec-side MoveClassifier definitions (for refinement comparison) -/

/-- A chess side, as the specification speaks of it. -/
inductive Side where
  | white
  | black
deriving DecidableEq

/-- Modelled from the spec: `evaluationLoss(preScore, postScore,
sideToMoveBeforeTheMove)` — "If the side to move was Black, loss =
|(−postScore) − (−preScore)|; otherwise loss = |postScore − preScore|." -/
def evaluationLoss (preScore postScore : ℚ) (sideToMove : Side) : ℚ :=
  if sideToMove = Side.black then |(-postScore) - (-preScore)|
  else |postScore - preScore|

/-- Modelled from the spec: `classify(loss)` — "loss ≤ 10 → excellent; ≤ 25 →
good; ≤ 50 → inaccuracy; ≤ 100 → mistake; otherwise blunder." -/
def classify (loss : ℚ) : String :=
  if loss ≤ 10 then "excellent"
  else if loss ≤ 25 then "good"
  else if loss ≤ 50 then "inaccuracy"
  else if loss ≤ 100 then "mistake"
  else "blunder"

/-! ## GameAnalyzer: the per-ply loop of `ChessAnalysisEngine.analyze_game`

The engine is an external process; its evaluations enter the loop as data.  A
`PlyInput` carries, for one ply, the engine scores obtained before and after
the move (White-perspective centipawns), the piece count of the resulting
position, and the bookkeeping strings the loop copies into its record. -/

structure PlyInput where
  pre_eval : ℚ
  post_eval : ℚ
  piece_count : ℕ
  move_played : String := ""
  best_move : Option String := none
  fen_after : String := ""

structure MoveAnalysisRecord where
  move_number : ℕ
  position_fen : String
  move_played : String
  best_move : Option String
  stockfish_eval : ℚ
  eval_loss : ℚ
  move_quality : String
  game_phase : String
deriving DecidableEq

/-- `python-chess` colours: `board.turn` is a boolean with `WHITE = True`.
`turn_after_plies k` is `board.turn` after `k` moves have been pushed from the
standard initial position (White to move). -/
def turn_after_plies (k : ℕ) : Bool :=
  if k % 2 = 0 then true else false

/-- The side to move before the `i`-th ply (0-based) of a game starting from
the standard initial position: the side to move in step 1 of the spec's
per-ply algorithm. -/
def side_to_move_before (i : ℕ) : Side :=
  if i % 2 = 0 then Side.white else Side.black

/-- The record built by one iteration of the loop body of
`ChessAnalysisEngine.analyze_game` for the 0-based ply index `i`.  As in the
source, the move has already been pushed when `board.turn` is read, so
`_calculate_eval_loss` receives `turn_after_plies (i+1)` as `is_black_turn`. -/
def mk_record (i : ℕ) (p : PlyInput) : MoveAnalysisRecord :=
  let eval_loss := calculate_eval_loss p.pre_eval p.post_eval (turn_after_plies (i + 1))
  { move_number := i + 1
    position_fen := p.fen_after
    move_played := p.move_played
    best_move := p.best_move
    stockfish_eval := p.post_eval
    eval_loss := eval_loss
    move_quality := categorize_move_quality eval_loss
    game_phase := determine_game_phase p.piece_count }

def analyze_game_from (i : ℕ) : List PlyInput → List MoveAnalysisRecord
  | [] => []
  | p :: ps => mk_record i p :: analyze_game_from (i + 1) ps

/-- Embeds `ChessAnalysisEngine.analyze_game`: the list of per-move analysis
records produced for the game's plies, in order. -/
def analyze_game (plies : List PlyInput) : List MoveAnalysisRecord :=
  analyze_game_from 0 plies

/-! ## ProgressTracker: the Redis progress hash

`update_analysis_progress` in `redis_client.py` performs
`redis_client.hset(key, mapping=progress_data)`: it overwrites exactly the
fields present in the mapping and leaves every other field as it was — unless
the redis-py client cannot encode one of the mapping's values.  A Python
`None` value is not encodable: the client raises `DataError` before anything
is sent, the function's `except` clause swallows it, and the hash is left
unchanged (a Redis hash cannot store a null field).  A hash is modelled as a
record of `Option`-valued fields (`none` = field absent); a mapping is a
`ProgressUpdate` (outer `none` = key not in the mapping; the inner `Option`
of `current_game_id` distinguishes an integer value from Python `None`, the
one field the program ever tries to set to `None`). -/

structure ProgressHash where
  games_total : Option Int := none
  games_completed : Option Int := none
  games_failed : Option Int := none
  percentage : Option ℚ := none
  status : Option String := none
  current_game_id : Option Int := none
  error_message : Option String := none
deriving DecidableEq

structure ProgressUpdate where
  games_total : Option Int := none
  games_completed : Option Int := none
  games_failed : Option Int := none
  percentage : Option ℚ := none
  status : Option String := none
  current_game_id : Option (Option Int) := none
  error_message : Option String := none
deriving DecidableEq

/-- One field of an `hset` merge: a key present in the mapping overwrites the
stored value, an absent key leaves it unchanged. -/
def overwrite {α : Type} (new old : Option α) : Option α :=
  match new with
  | some v => some v
  | none => old

/-- Whether redis-py can encode every value of the mapping.  Ints, floats and
strings are encodable; Python `None` is not (`DataError: Invalid input of
type: 'NoneType'`).  In the mappings the program builds, `current_game_id` is
the only key ever given a `None` value. -/
def mapping_encodable (m : ProgressUpdate) : Bool :=
  match m.current_game_id with
  | some none => false
  | _ => true

/-- Embeds `update_analysis_progress(user_id, progress_data)`: the effect of
`hset(key, mapping=progress_data)` on the user's progress hash.  When the
mapping holds a `None` value, the client raises `DataError` before writing;
the function's `except` clause logs and returns `False`, so the hash is
unchanged. -/
def update_analysis_progress (h : ProgressHash) (m : ProgressUpdate) : ProgressHash :=
  if mapping_encodable m then
    { games_total := overwrite m.games_total h.games_total
      games_completed := overwrite m.games_completed h.games_completed
      games_failed := overwrite m.games_failed h.games_failed
      percentage := overwrite m.percentage h.percentage
      status := overwrite m.status h.status
      current_game_id :=
        match m.current_game_id with
        | some (some v) => some v
        | _ => h.current_game_id
      error_message := overwrite m.error_message h.error_message }
  else h

/-- The mapping written by `analyze_game_task` before analysis starts
(`analysis_service.py` line 158). -/
def analyzing_update (game_id : Int) : ProgressUpdate :=
  { status := some "analyzing", current_game_id := some (some game_id) }

/-- The mapping `analyze_game_task` submits on the success path
(`analysis_service.py` line 191): the literal value 1 next to the comment
"Increment completed count", alongside `current_game_id: None`.  Because of
the `None` value this mapping is not encodable, so submitting it never
reaches Redis. -/
def success_update : ProgressUpdate :=
  { games_completed := some 1, current_game_id := some none }

/-- The mapping written by `analyze_game_task` in its exception handler
(`analysis_service.py` line 210). -/
def failure_update (err : String) : ProgressUpdate :=
  { games_failed := some 1, status := some "failed", error_message := some err }

/-- The progress writes a successful run of `analyze_game_task` performs on
the owner's progress hash, in order: the "analyzing" write takes effect, the
completion write dies client-side on its `None` value and leaves the hash
(including `current_game_id`) unchanged. -/
def analyze_game_task_success (game_id : Int) (h : ProgressHash) : ProgressHash :=
  update_analysis_progress (update_analysis_progress h (analyzing_update game_id)) success_update

/-- The progress writes a failing run of `analyze_game_task` performs on the
owner's progress hash (analysis raises after the initial "analyzing" write). -/
def analyze_game_task_failure (game_id : Int) (err : String) (h : ProgressHash) : ProgressHash :=
  update_analysis_progress (update_analysis_progress h (analyzing_update game_id)) (failure_update err)

/-- The mapping written by `fetch_user_games_task` at batch start
(`lichess_service.py` line 145). -/
def fetching_update : ProgressUpdate :=
  { status := some "fetching", games_total := some 0, games_completed := some 0,
    percentage := some 0 }

/-- The mapping written by `fetch_user_games_task` once the `n` games of the
batch are stored and the per-game jobs are about to be enqueued
(`lichess_service.py` line 183). -/
def batch_start_update (n : Int) : ProgressUpdate :=
  { status := some "analyzing", games_total := some n, games_completed := some 0,
    percentage := some 0 }

/-- The progress hash of a user for whom no record exists. -/
def empty_hash : ProgressHash := {}

/-- The progress hash right after `fetch_user_games_task` stored a batch of
`n` games, starting from no record. -/
def batch_start (n : Int) : ProgressHash :=
  update_analysis_progress (update_analysis_progress empty_hash fetching_update)
    (batch_start_update n)

/-- `hgetall` returns an empty dict when the key is absent;
`get_analysis_progress` maps that to `None`. -/
def ProgressHash.isEmpty (h : ProgressHash) : Bool :=
  h.games_total.isNone && h.games_completed.isNone && h.games_failed.isNone &&
  h.percentage.isNone && h.status.isNone && h.current_game_id.isNone &&
  h.error_message.isNone

/-- Embeds `get_analysis_progress`: `None` for an absent record, otherwise the
stored fields (the string-to-int/float conversion of the source is the
identity in this typed model). -/
def get_analysis_progress (h : ProgressHash) : Option ProgressHash :=
  if h.isEmpty then none else some h

/-! ## The `/analysis/status` endpoint -/

structure AnalysisStatus where
  games_total : Int
  games_completed : Int
  games_failed : Int
  percentage : ℚ
  status : String
  estimated_completion : Option String := none
  is_complete : Bool
deriving DecidableEq

/-- Python's `round(x, d)`: round half to even at `d` decimal digits
(modelled exactly on rationals). -/
def pyRound (x : ℚ) (d : ℕ) : ℚ :=
  let scale : ℚ := (10 : ℚ) ^ d
  let y := x * scale
  let f : ℤ := ⌊y⌋
  let r := y - (f : ℚ)
  if r < 1/2 then (f : ℚ) / scale
  else if r > 1/2 then ((f + 1 : ℤ) : ℚ) / scale
  else if f % 2 = 0 then (f : ℚ) / scale else ((f + 1 : ℤ) : ℚ) / scale

/-- Embeds `get_analysis_status` in `api/analysis.py`: the progress read model
served to the poller.  `percentage` is `progress.get('percentage', 0)` — the
stored hash field with default 0 — rounded to one decimal. -/
def get_analysis_status (h : ProgressHash) : AnalysisStatus :=
  match get_analysis_progress h with
  | none =>
      { games_total := 0, games_completed := 0, games_failed := 0, percentage := 0,
        status := "no_analysis_running", is_complete := true }
  | some progress =>
      let games_total := progress.games_total.getD 0
      let games_completed := progress.games_completed.getD 0
      let games_failed := progress.games_failed.getD 0
      let percentage := progress.percentage.getD 0
      let st := progress.status.getD "unknown"
      let is_complete := decide (100 ≤ percentage) || (st == "completed")
      let estimated_completion :=
        if 0 < percentage ∧ percentage < 100 then
          some (toString (⌊(100 - percentage) * 2⌋) ++ " minutes")
        else none
      { games_total := games_total
        games_completed := games_completed
        games_failed := games_failed
        percentage := pyRound percentage 1
        status := st
        estimated_completion := estimated_completion
        is_complete := is_complete }

/-! ## The per-game analysis read service

`get_game_analysis` in `analysis_service.py` queries the `games` table for a
row with the requested id *and* the requesting user's id, returns `None` when
no such row exists, and otherwise assembles the stored `game_analysis` rows
(ordered by move number) with a summary block.  The database is modelled as
the lists of rows the two queries range over. -/

structure Game where
  id : Int
  user_id : Int
  lichess_game_id : String := ""
  time_control : String := ""
  result : String := ""
  opening_name : String := ""
  user_rating : Int := 0
  opponent_rating : Int := 0
deriving DecidableEq

structure GameAnalysisRow where
  game_id : Int
  move_number : Int
  move_played : String := ""
  best_move : Option String := none
  stockfish_eval : ℚ := 0
  eval_loss : ℚ := 0
  move_quality : String := ""
  time_spent : ℚ := 0
  game_phase : String := ""
deriving DecidableEq

structure GameInfo where
  id : Int
  lichess_id : String
  time_control : String
  result : String
  opening : String
  user_rating : Int
  opponent_rating : Int
deriving DecidableEq

structure MoveDetail where
  move_number : Int
  move_played : String
  best_move : Option String
  evaluation : ℚ
  eval_loss : ℚ
  quality : String
  time_spent : ℚ
  phase : String
deriving DecidableEq

structure AnalysisSummary where
  total_moves : ℕ
  blunders : ℕ
  mistakes : ℕ
  inaccuracies : ℕ
  average_eval_loss : ℚ
  accuracy_score : ℚ
deriving DecidableEq

structure GameAnalysisResponse where
  game_info : GameInfo
  analysis : List MoveDetail
  summary : AnalysisSummary
deriving DecidableEq

/-- `ORDER BY move_number` (stable insertion sort). -/
def insert_by_move (a : GameAnalysisRow) : List GameAnalysisRow → List GameAnalysisRow
  | [] => [a]
  | b :: rest =>
      if a.move_number ≤ b.move_number then a :: b :: rest
      else b :: insert_by_move a rest

def order_by_move_number : List GameAnalysisRow → List GameAnalysisRow
  | [] => []
  | a :: rest => insert_by_move a (order_by_move_number rest)

/-- Embeds the service function `get_game_analysis(game_id, user_id, db)`. -/
def get_game_analysis (games : List Game) (analyses : List GameAnalysisRow)
    (game_id user_id : Int) : Option GameAnalysisResponse :=
  match games.find? (fun g => g.id == game_id && g.user_id == user_id) with
  | none => none
  | some game =>
      let analysis_data := order_by_move_number (analyses.filter (fun a => a.game_id == game_id))
      let total_moves := analysis_data.length
      let blunders := (analysis_data.filter (fun a => a.move_quality == "blunder")).length
      let mistakes := (analysis_data.filter (fun a => a.move_quality == "mistake")).length
      let inaccuracies := (analysis_data.filter (fun a => a.move_quality == "inaccuracy")).length
      let avg_eval_loss :=
        if total_moves > 0 then
          (analysis_data.map (fun a => a.eval_loss)).sum / (total_moves : ℚ)
        else 0
      let accuracy_score := max 0 (100 - avg_eval_loss / 2)
      some
        { game_info :=
            { id := game.id
              lichess_id := game.lichess_game_id
              time_control := game.time_control
              result := game.result
              opening := game.opening_name
              user_rating := game.user_rating
              opponent_rating := game.opponent_rating }
          analysis := analysis_data.map (fun a =>
            { move_number := a.move_number
              move_played := a.move_played
              best_move := a.best_move
              evaluation := a.stockfish_eval
              eval_loss := a.eval_loss
              quality := a.move_quality
              time_spent := a.time_spent
              phase := a.game_phase })
          summary :=
            { total_moves := total_moves
              blunders := blunders
              mistakes := mistakes
              inaccuracies := inaccuracies
              average_eval_loss := pyRound avg_eval_loss 2
              accuracy_score := pyRound accuracy_score 1 } }

/-- Embeds `get_game_analysis_endpoint` in `api/analysis.py`: a `None` from
the service surfaces as HTTP 404. -/
def get_game_analysis_endpoint (games : List Game) (analyses : List GameAnalysisRow)
    (game_id user_id : Int) : Except Nat GameAnalysisResponse :=
  match get_game_analysis games analyses game_id user_id with
  | none => Except.error 404
  | some a => Except.ok a

/-! ## Concrete sample data used by the theorems below -/

/-- Progress state after two successful job completions of a two-game batch. -/
def two_game_batch_after_two_successes : ProgressHash :=
  analyze_game_task_success 6 (analyze_game_task_success 5 (batch_start 2))

/-- A stored progress record with `games_total=10`, `games_completed=3`,
`games_failed=1` and the `percentage` field as the batch start wrote it. -/
def progress_10_3_1 : ProgressHash :=
  { games_total := some 10, games_completed := some 3, games_failed := some 1,
    percentage := some 0, status := some "analyzing" }

/-- A three-game batch in flight with one prior failure already recorded. -/
def batch_with_one_failure : ProgressHash :=
  { games_total := some 3, games_completed := some 1, games_failed := some 1,
    status := some "analyzing" }

/-- A single concrete ply: White to move, score drops from +30 to −120. -/
def sample_ply : PlyInput :=
  { pre_eval := 30, post_eval := -120, piece_count := 32 }

/-- A one-row games table: game 1 owned by user 7. -/
def sample_games : List Game :=
  [{ id := 1, user_id := 7, lichess_game_id := "abc12345" }]

/-- One stored analysis row for game 1. -/
def sample_rows : List GameAnalysisRow :=
  [{ game_id := 1, move_number := 1, move_quality := "excellent", eval_loss := 5 }]

/-! ## Theorems -/

/-- The code's classifier and the spec's `classify` are the same ite-chain. -/
theorem categorize_eq_classify (L : ℚ) : categorize_move_quality L = classify L := rfl

/-- C6: `_categorize_move_quality` is a pure function of the loss alone with
inclusive lower-tag boundaries: `excellent` exactly on L ≤ 10, `good` exactly
on 10 < L ≤ 25, `inaccuracy` exactly on 25 < L ≤ 50, `mistake` exactly on
50 < L ≤ 100, `blunder` exactly on 100 < L; in particular L = 10 is
`excellent` and L = 10.01 is `good`. -/
theorem categorize_move_quality_thresholds (L : ℚ) :
    (categorize_move_quality L = "excellent" ↔ L ≤ 10) ∧
    (categorize_move_quality L = "good" ↔ 10 < L ∧ L ≤ 25) ∧
    (categorize_move_quality L = "inaccuracy" ↔ 25 < L ∧ L ≤ 50) ∧
    (categorize_move_quality L = "mistake" ↔ 50 < L ∧ L ≤ 100) ∧
    (categorize_move_quality L = "blunder" ↔ 100 < L) ∧
    categorize_move_quality 10 = "excellent" ∧
    categorize_move_quality (1001 / 100) = "good" := by
  refine ⟨?_, ?_, ?_, ?_, ?_, by norm_num [categorize_move_quality],
    by norm_num [categorize_move_quality]⟩ <;>
    (unfold categorize_move_quality; split_ifs with h1 h2 h3 h4 <;> simp_all) <;>
    first
      | linarith
      | (intro hx; linarith)

/-- C7: `_determine_game_phase` is a pure function of the remaining piece
count with strict thresholds: `opening` exactly on n > 28, `middlegame`
exactly on 12 < n ≤ 28, `endgame` exactly on n ≤ 12; in particular 29 pieces
give `opening`, 28 and 13 give `middlegame`, 12 gives `endgame`. -/
theorem determine_game_phase_thresholds (n : ℕ) :
    (determine_game_phase n = "opening" ↔ 28 < n) ∧
    (determine_game_phase n = "middlegame" ↔ 12 < n ∧ n ≤ 28) ∧
    (determine_game_phase n = "endgame" ↔ n ≤ 12) ∧
    determine_game_phase 29 = "opening" ∧
    determine_game_phase 28 = "middlegame" ∧
    determine_game_phase 13 = "middlegame" ∧
    determine_game_phase 12 = "endgame" := by
  refine ⟨?_, ?_, ?_, by decide, by decide, by decide, by decide⟩ <;>
    (unfold determine_game_phase; split_ifs with h1 h2 <;> simp_all) <;> omega

/-- C8: `_calculate_eval_loss` returns `|(−post) − (−pre)|` when the mover was
Black and `|post − pre|` when the mover was White; the Black result equals the
White result on sign-negated inputs, and the result is always non-negative. -/
theorem calculate_eval_loss_sign_flip (pre_eval post_eval : ℚ) :
    calculate_eval_loss pre_eval post_eval true = |(-post_eval) - (-pre_eval)| ∧
    calculate_eval_loss pre_eval post_eval false = |post_eval - pre_eval| ∧
    calculate_eval_loss pre_eval post_eval true =
      calculate_eval_loss (-pre_eval) (-post_eval) false ∧
    (∀ b : Bool, 0 ≤ calculate_eval_loss pre_eval post_eval b) := by
  refine ⟨rfl, rfl, rfl, fun b => ?_⟩
  cases b
  · show 0 ≤ |post_eval - pre_eval|
    exact abs_nonneg _
  · show 0 ≤ |(-post_eval) - (-pre_eval)|
    exact abs_nonneg _

/-- C9: `_determine_result` maps `draw` to `draw` and both `resign` and
`mate` to `win` for every user colour; it never returns `loss`, and every
other game status yields `unknown`. -/
theorem determine_result_always_win (user_color : String) :
    determine_result "draw" user_color = "draw" ∧
    determine_result "resign" user_color = "win" ∧
    determine_result "mate" user_color = "win" ∧
    (∀ st : String, determine_result st user_color ≠ "loss") ∧
    (∀ st : String, st ≠ "draw" → st ≠ "resign" → st ≠ "mate" →
      determine_result st user_color = "unknown") := by
  refine ⟨by simp [determine_result], by simp [determine_result],
    by simp [determine_result], fun st => ?_, fun st h1 h2 h3 => ?_⟩
  · unfold determine_result
    split_ifs <;> decide
  · unfold determine_result
    rw [if_neg h1, if_neg h2, if_neg h3]

/-- C9 witness: a concrete non-draw/resign/mate status yields `unknown`, and
`resign` yields `win` for a concrete colour. -/
theorem determine_result_always_win_witness :
    determine_result "outoftime" "white" = "unknown" ∧
    determine_result "resign" "white" = "win" :=
  ⟨(determine_result_always_win "white").2.2.2.2 "outoftime"
      (by decide) (by decide) (by decide),
    (determine_result_always_win "white").2.1⟩

/-- Indexing the analyzer's output: the record at index `i` of a run started
at ply counter `j` is built from the ply input at index `i` with counter
`j + i`. -/
theorem analyze_game_from_getElem (plies : List PlyInput) (j i : ℕ) :
    (analyze_game_from j plies)[i]? = plies[i]?.map (fun p => mk_record (j + i) p) := by
  induction plies generalizing j i with
  | nil => simp [analyze_game_from]
  | cons p ps ih =>
      cases i with
      | zero => simp [analyze_game_from]
      | succ k =>
          simp only [analyze_game_from, List.getElem?_cons_succ]
          rw [ih (j + 1) k, show j + 1 + k = j + (k + 1) from by omega]

/-- For one ply, the loss the loop computes (passing the post-push
`board.turn` as `is_black_turn`) coincides with the spec's `evaluationLoss`
taken at the side that was to move before the move: the post-push turn flips
the colour, and reading the White-is-true boolean as `is_black_turn` flips it
back. -/
theorem recorded_loss_eq_spec_loss (i : ℕ) (p : PlyInput) :
    calculate_eval_loss p.pre_eval p.post_eval (turn_after_plies (i + 1)) =
      evaluationLoss p.pre_eval p.post_eval (side_to_move_before i) := by
  rcases Nat.even_or_odd i with he | ho
  · have h2 : i % 2 = 0 := Nat.even_iff.mp he
    have h3 : (i + 1) % 2 = 1 := by omega
    simp [turn_after_plies, side_to_move_before, calculate_eval_loss, evaluationLoss, h2, h3]
  · have h2 : i % 2 = 1 := Nat.odd_iff.mp ho
    have h3 : (i + 1) % 2 = 0 := by omega
    simp [turn_after_plies, side_to_move_before, calculate_eval_loss, evaluationLoss, h2, h3]

/-- C5: every ply's recorded evaluation loss equals
`evaluationLoss(preScore, postScore, s)` where `s` is the side that was to
move *before* the played move was applied, and its quality tag is `classify`
of that loss. -/
theorem analyze_game_ply_classification (plies : List PlyInput) (i : ℕ) (p : PlyInput)
    (h : plies[i]? = some p) :
    (analyze_game plies)[i]? = some (mk_record i p) ∧
    (mk_record i p).eval_loss =
      evaluationLoss p.pre_eval p.post_eval (side_to_move_before i) ∧
    (mk_record i p).move_quality =
      classify (evaluationLoss p.pre_eval p.post_eval (side_to_move_before i)) := by
  refine ⟨?_, ?_, ?_⟩
  · unfold analyze_game
    rw [analyze_game_from_getElem, h]
    simp
  · simp [mk_record, recorded_loss_eq_spec_loss]
  · simp [mk_record, recorded_loss_eq_spec_loss, categorize_eq_classify]

/-- C5 witness: the single-ply game `sample_ply` (White to move, +30 to
−120). -/
theorem analyze_game_ply_classification_witness :
    (analyze_game [sample_ply])[0]? = some (mk_record 0 sample_ply) ∧
    (mk_record 0 sample_ply).eval_loss =
      evaluationLoss sample_ply.pre_eval sample_ply.post_eval (side_to_move_before 0) ∧
    (mk_record 0 sample_ply).move_quality =
      classify (evaluationLoss sample_ply.pre_eval sample_ply.post_eval
        (side_to_move_before 0)) :=
  analyze_game_ply_classification [sample_ply] 0 sample_ply rfl

/-- C1 (divergence): job completions never increment the counters.  The
success-path mapping `{'games_completed': 1, 'current_game_id': None}` dies
client-side on its `None` value (`DataError`, swallowed), so a success on a
record already holding `games_completed = 3` leaves it at 3 (the claim
requires 4) and two sequential successes on a fresh two-game batch leave it
at 0 (the claim requires 2); the failure-path mapping does reach Redis but
`hset` overwrites `games_failed` with the constant 1, so a failure on a
record holding `games_failed = 1` leaves it at 1 (the claim requires 2). -/
theorem job_completion_never_increments :
    (analyze_game_task_success 5
      { batch_start 4 with games_completed := some 3 }).games_completed = some 3 ∧
    two_game_batch_after_two_successes.games_completed = some 0 ∧
    (analyze_game_task_failure 7 "engine error"
      { batch_start 4 with games_failed := some 1 }).games_failed = some 1 := by
  decide

/-- C2 (divergence): after both jobs of a two-game batch report success, the
stored counters sum to 0, not 2 — the success-path progress write never takes
effect — and the status is still `analyzing`: the code never writes
`completed` anywhere. -/
theorem batch_never_reaches_completed :
    two_game_batch_after_two_successes.games_total = some 2 ∧
    two_game_batch_after_two_successes.games_completed.getD 0 +
      two_game_batch_after_two_successes.games_failed.getD 0 = 0 ∧
    two_game_batch_after_two_successes.status = some "analyzing" := by
  decide

/-- C3 (divergence): the `/status` read model takes `percentage` from the
independently stored `percentage` hash field (default 0), not from the
counters: the record `games_total=10, games_completed=3, games_failed=1`
reads back as 0, not 40, and changing only the stored field (counters
untouched) changes the answer. -/
theorem percentage_read_from_stored_field :
    (get_analysis_status progress_10_3_1).percentage = 0 ∧
    (get_analysis_status progress_10_3_1).percentage ≠ 40 ∧
    (get_analysis_status { progress_10_3_1 with percentage := some 55 }).percentage = 55 := by
  have h1 : pyRound 0 1 = 0 := by unfold pyRound; norm_num
  have h2 : pyRound 55 1 = 55 := by unfold pyRound; norm_num
  refine ⟨?_, ?_, ?_⟩ <;>
    simp [get_analysis_status, get_analysis_progress, ProgressHash.isEmpty, progress_10_3_1,
      h1, h2]

/-- C4 counterexample: on a three-game batch with one prior failure, a single
per-game failure sets the batch-level status to `failed` (the claim says this
never happens) and leaves `games_failed` at 1 instead of incrementing it
to 2. -/
theorem per_game_failure_sets_batch_failed :
    (analyze_game_task_failure 9 "engine crashed" batch_with_one_failure).status =
      some "failed" ∧
    (analyze_game_task_failure 9 "engine crashed" batch_with_one_failure).games_failed =
      some 1 := by
  decide

/-- C4 amended: a per-game analysis failure overwrites `games_failed` with the
constant 1, sets the batch-level status to `failed`, stores the error message,
and leaves `games_completed` unchanged. -/
theorem per_game_failure_behavior (h : ProgressHash) (game_id : Int) (err : String) :
    (analyze_game_task_failure game_id err h).games_failed = some 1 ∧
    (analyze_game_task_failure game_id err h).status = some "failed" ∧
    (analyze_game_task_failure game_id err h).error_message = some err ∧
    (analyze_game_task_failure game_id err h).games_completed = h.games_completed :=
  ⟨rfl, rfl, rfl, rfl⟩

/-- C10: `get_game_analysis` is scoped to the owning user — it returns a
result only when a game row with the requested id is owned by the requesting
user, and for a user owning no such row it returns `None`, surfaced as
HTTP 404 by the endpoint. -/
theorem get_game_analysis_user_scoped (games : List Game)
    (analyses : List GameAnalysisRow) (game_id user_id : Int) :
    ((get_game_analysis games analyses game_id user_id).isSome →
      ∃ g ∈ games, g.id = game_id ∧ g.user_id = user_id) ∧
    ((¬ ∃ g ∈ games, g.id = game_id ∧ g.user_id = user_id) →
      get_game_analysis games analyses game_id user_id = none ∧
      get_game_analysis_endpoint games analyses game_id user_id = Except.error 404) := by
  constructor
  · intro hsome
    unfold get_game_analysis at hsome
    rcases hf : games.find? (fun g => g.id == game_id && g.user_id == user_id) with _ | g
    · rw [hf] at hsome
      simp at hsome
    · have hmem := List.mem_of_find?_eq_some hf
      have hp := List.find?_some hf
      simp only [Bool.and_eq_true, beq_iff_eq] at hp
      exact ⟨g, hmem, hp⟩
  · intro hnone
    have hf : games.find? (fun g => g.id == game_id && g.user_id == user_id) = none := by
      rw [List.find?_eq_none]
      intro g hg
      simp only [Bool.and_eq_true, beq_iff_eq, not_and]
      intro hid huid
      exact hnone ⟨g, hg, hid, huid⟩
    constructor
    · unfold get_game_analysis
      rw [hf]
    · unfold get_game_analysis_endpoint get_game_analysis
      rw [hf]

/-- C10 witness: user 7 owns game 1 and can read it; user 8 cannot — the
service returns `None` and the endpoint 404. -/
theorem get_game_analysis_user_scoped_witness :
    (∃ g ∈ sample_games, g.id = 1 ∧ g.user_id = 7) ∧
    get_game_analysis sample_games sample_rows 1 8 = none ∧
    get_game_analysis_endpoint sample_games sample_rows 1 8 = Except.error 404 :=
  ⟨(get_game_analysis_user_scoped sample_games sample_rows 1 7).1 (by decide),
    (get_game_analysis_user_scoped sample_games sample_rows 1 8).2 (by decide)⟩

end ChessForge
